import Mathlib

/-!
A shallow embedding of the core of the RustNAO SauceNAO client
(src/src/handler.rs, src/src/handler/constants.rs, src/src/handler/error.rs),
with theorems checking the natural-language specification against it.

Modelling conventions:
* Rust `u32` values are `Nat`; wherever overflow matters the bound `2 ^ 32`
  is explicit.  `i32` is `Int`.
* Rust `f64` is modelled as `Rat`.  The only operations the code performs on
  similarity values are comparisons against thresholds and parsing from a
  decimal string, which `Rat` models exactly on the decimal fragment.
* Shared mutable state (`AtomicU32`, `AtomicBool`, `Mutex<f64>` in `Handler`)
  is modelled as plain record fields threaded sequentially: each theorem is
  about one call acting on one handler snapshot.
* Fallible Rust code returns a value of `ProcOut` / `Option`; a Rust panic
  (out-of-bounds `Vec` indexing, checked-arithmetic overflow in `u32::pow`)
  is modelled by the distinguished outcome `ProcOut.panicked` or by `none`,
  never conflated with the typed error channel `Error`.
-/

namespace Rustnao

/-- The list of all available sources on SauceNAO, from
src/src/handler/constants.rs (`enum Source`), each with its stable index. -/
inductive Source where
  | HMagazines
  | HGameCG
  | DoujinshiDB
  | Pixiv
  | NicoNicoSeiga
  | Danbooru
  | Drawr
  | Nijie
  | Yandere
  | Shutterstock
  | Fakku
  | HMisc
  | TwoDMarket
  | MediBang
  | Anime
  | HAnime
  | Movies
  | Shows
  | Gelbooru
  | Konachan
  | SankakuChannel
  | AnimePicturesNet
  | E621Net
  | IdolComplex
  | BcyNetIllust
  | BcyNetCosplay
  | PortalGraphicsNet
  | DeviantArt
  | PawooNet
  | Madokami
  | MangaDex
  | EHentai
  | ArtStation
  | FurAffinity
  | Twitter
  | FurryNetwork
  | Kemono
  | Skeb
deriving DecidableEq

/-- The numeric discriminant of each `Source` variant, exactly the values
assigned in constants.rs (`HMagazines = 0`, ..., `Skeb = 44`). -/
def Source.index : Source → Nat
  | .HMagazines => 0
  | .HGameCG => 2
  | .DoujinshiDB => 3
  | .Pixiv => 5
  | .NicoNicoSeiga => 8
  | .Danbooru => 9
  | .Drawr => 10
  | .Nijie => 11
  | .Yandere => 12
  | .Shutterstock => 15
  | .Fakku => 16
  | .HMisc => 18
  | .TwoDMarket => 19
  | .MediBang => 20
  | .Anime => 21
  | .HAnime => 22
  | .Movies => 23
  | .Shows => 24
  | .Gelbooru => 25
  | .Konachan => 26
  | .SankakuChannel => 27
  | .AnimePicturesNet => 28
  | .E621Net => 29
  | .IdolComplex => 30
  | .BcyNetIllust => 31
  | .BcyNetCosplay => 32
  | .PortalGraphicsNet => 33
  | .DeviantArt => 34
  | .PawooNet => 35
  | .Madokami => 36
  | .MangaDex => 37
  | .EHentai => 38
  | .ArtStation => 39
  | .FurAffinity => 40
  | .Twitter => 41
  | .FurryNetwork => 42
  | .Kemono => 43
  | .Skeb => 44

/-- The display name of each source, from `Source::name` in constants.rs. -/
def Source.name : Source → String
  | .HMagazines => "H-Magazines"
  | .HGameCG => "H-Game CG"
  | .DoujinshiDB => "DoujinshiDB"
  | .Pixiv => "pixiv Images"
  | .NicoNicoSeiga => "Nico Nico Seiga"
  | .Danbooru => "Danbooru"
  | .Drawr => "drawr Images"
  | .Nijie => "Nijie Images"
  | .Yandere => "Yande.re"
  | .Shutterstock => "Shutterstock"
  | .Fakku => "FAKKU"
  | .HMisc => "H-Misc"
  | .TwoDMarket => "2D-Market"
  | .MediBang => "MediBang"
  | .Anime => "Anime"
  | .HAnime => "H-Anime"
  | .Movies => "Movies"
  | .Shows => "Shows"
  | .Gelbooru => "Gelbooru"
  | .Konachan => "Konachan"
  | .SankakuChannel => "Sankaku Channel"
  | .AnimePicturesNet => "Anime-Pictures.net"
  | .E621Net => "e621.net"
  | .IdolComplex => "Idol Complex"
  | .BcyNetIllust => "bcy.net Illust"
  | .BcyNetCosplay => "bcy.net Cosplay"
  | .PortalGraphicsNet => "PortalGraphics.net"
  | .DeviantArt => "deviantArt"
  | .PawooNet => "Pawoo.net"
  | .Madokami => "Madokami"
  | .MangaDex => "MangaDex"
  | .EHentai => "E-Hentai"
  | .ArtStation => "ArtStation"
  | .FurAffinity => "FurAffinity"
  | .Twitter => "Twitter"
  | .FurryNetwork => "Furry Network"
  | .Kemono => "Kemono"
  | .Skeb => "Skeb"

/-- `Source::from_u32` from constants.rs: index to variant lookup. -/
def Source.from_u32 (index : Nat) : Option Source :=
  match index with
  | 0 => some Source.HMagazines
  | 2 => some Source.HGameCG
  | 3 => some Source.DoujinshiDB
  | 5 => some Source.Pixiv
  | 8 => some Source.NicoNicoSeiga
  | 9 => some Source.Danbooru
  | 10 => some Source.Drawr
  | 11 => some Source.Nijie
  | 12 => some Source.Yandere
  | 15 => some Source.Shutterstock
  | 16 => some Source.Fakku
  | 18 => some Source.HMisc
  | 19 => some Source.TwoDMarket
  | 20 => some Source.MediBang
  | 21 => some Source.Anime
  | 22 => some Source.HAnime
  | 23 => some Source.Movies
  | 24 => some Source.Shows
  | 25 => some Source.Gelbooru
  | 26 => some Source.Konachan
  | 27 => some Source.SankakuChannel
  | 28 => some Source.AnimePicturesNet
  | 29 => some Source.E621Net
  | 30 => some Source.IdolComplex
  | 31 => some Source.BcyNetIllust
  | 32 => some Source.BcyNetCosplay
  | 33 => some Source.PortalGraphicsNet
  | 34 => some Source.DeviantArt
  | 35 => some Source.PawooNet
  | 36 => some Source.Madokami
  | 37 => some Source.MangaDex
  | 38 => some Source.EHentai
  | 39 => some Source.ArtStation
  | 40 => some Source.FurAffinity
  | 41 => some Source.Twitter
  | 42 => some Source.FurryNetwork
  | 43 => some Source.Kemono
  | 44 => some Source.Skeb
  | _ => none

/-- Separator of `index_name.split(':')` in handler.rs. -/
def colonChar : Char := ':'

/-- Separator of `.split('#')` in handler.rs. -/
def hashChar : Char := '#'

/-- Decimal point, for the `f64` parsing model. -/
def dotChar : Char := '.'

/-- Leading sign character accepted by Rust integer/float parsing. -/
def plusChar : Char := '+'

/-- Leading sign character accepted by Rust float parsing. -/
def minusChar : Char := '-'

/-- Models Rust `str::split(sep)`: the maximal runs between occurrences of the
separator, empty runs included — always at least one part, and `n + 1` parts
for `n` separator occurrences.  Strings are handled as their character
lists. -/
def splitOnChar (sep : Char) : List Char → List (List Char)
  | [] => [[]]
  | c :: rest =>
    if c = sep then [] :: splitOnChar sep rest
    else
      match splitOnChar sep rest with
      | h :: t => (c :: h) :: t
      | [] => [[c]]

/-- Numeric value of an all-digit character list. -/
def digitsVal (cs : List Char) : Nat :=
  cs.foldl (fun a c => a * 10 + (c.toNat - 48)) 0

/-- Models Rust `str::parse::<u32>()`: an optional leading `+` followed by at
least one decimal digit, with the result required to fit in 32 bits (Rust
returns an overflow error otherwise).  `none` models `Err(ParseIntError)`. -/
def parseU32Chars (cs : List Char) : Option Nat :=
  let t := match cs with
    | c :: rest => if c = plusChar then rest else cs
    | [] => cs
  if t ≠ [] ∧ t.all Char.isDigit then
    let v := digitsVal t
    if v < 2 ^ 32 then some v else none
  else none

/-- `str::parse::<u32>()` on a `String` field. -/
def parseU32 (s : String) : Option Nat :=
  parseU32Chars s.data

/-- The signed integer for a parsed magnitude. -/
def signedInt (neg : Bool) (n : Nat) : Int :=
  if neg then -(n : Int) else (n : Int)

/-- Models Rust `str::parse::<f64>()` on the decimal fragment the provider
emits (spec section 6: similarity is a decimal string): an optional sign, then
digits with an optional fractional part, at least one digit in total.  Strings
outside this fragment (exponents, `inf`, `NaN`) do not occur in the responses
the claims quantify over and are treated as malformed.  The value
`±(ip.fp) = ±(ip·10^|fp| + fp) / 10^|fp|` is exact as a `Rat`; `none` models
`Err(ParseFloatError)`. -/
def parseF64 (s : String) : Option Rat :=
  let (neg, t) : Bool × List Char := match s.data with
    | c :: rest =>
      if c = minusChar then (true, rest)
      else if c = plusChar then (false, rest)
      else (false, s.data)
    | [] => (false, [])
  match splitOnChar dotChar t with
  | [ip] =>
    if ip ≠ [] ∧ ip.all Char.isDigit then
      some (mkRat (signedInt neg (digitsVal ip)) 1)
    else none
  | [ip, fp] =>
    if (ip ≠ [] ∨ fp ≠ []) ∧ ip.all Char.isDigit ∧ fp.all Char.isDigit then
      some (mkRat (signedInt neg (digitsVal ip * 10 ^ fp.length + digitsVal fp)) (10 ^ fp.length))
    else none
  | _ => none

/-- `Handler::generate_bitmask` from src/src/handler.rs lines 284-295:

    let mut res: u32 = 0;
    for m in mask {
        let offset = if m >= 18 { 1 } else { 0 };
        res ^= u32::pow(2, m - offset);
    }
    res

`u32::pow(2, e)` overflows `u32` for `e ≥ 32`; with overflow checks this is a
panic, without them the bit is silently lost — either way no well-defined mask
carrying that source's bit is produced.  The overflow is modelled as `none`;
`some res` is the value the loop accumulates when every power fits in 32 bits.
This is the accumulator-threading loop body. -/
def generate_bitmask_go (res : Nat) : List Nat → Option Nat
  | [] => some res
  | m :: rest =>
    let offset := if 18 ≤ m then 1 else 0
    if 2 ^ (m - offset) < 2 ^ 32 then
      generate_bitmask_go (res ^^^ 2 ^ (m - offset)) rest
    else none

/-- `Handler::generate_bitmask`: see `generate_bitmask_go`. -/
def generate_bitmask (mask : List Nat) : Option Nat :=
  generate_bitmask_go 0 mask

/-- The shifted bit position `m - offset` that `generate_bitmask` uses for an
index `m`: `m - 1` for `m ≥ 18`, `m` otherwise. -/
def shiftedBit (m : Nat) : Nat :=
  m - (if 18 ≤ m then 1 else 0)

/-- The error taxonomy from src/src/handler/error.rs (`enum Error`).  Each
constructor carries the same payload as the Rust variant; for parse errors the
string is the `Display` text of the wrapped std error. -/
inductive Error where
  | InvalidParse : String → Error
  | InvalidFile : String → Error
  | InvalidSerde : String → Error
  | InvalidCode : Int → String → Error
  | InvalidRequest : String → Error
  | InvalidParameters : String → Error
deriving DecidableEq

/-- `Display` text of Rust's `ParseIntError` in the invalid-digit case, the
text `error.rs: From<ParseIntError>` wraps into `Error::InvalidParse`. -/
def parseIntErrorMessage : String := "invalid digit found in string"

/-- `Display` text of Rust's `ParseFloatError`, the text
`error.rs: From<ParseFloatError>` wraps into `Error::InvalidParse`. -/
def parseFloatErrorMessage : String := "invalid float literal"

/-- Validation message from src/src/handler.rs line 557. -/
def minSimErrorMessage : String := "min_similarity must be less 100.0 and greater than 0.0."

/-- Validation message from src/src/handler.rs line 560. -/
def numResErrorMessage : String := "num_results must be less than 999."

/-- The response header block consumed by `process_results`; field names and
types follow their use in src/src/handler.rs (the `deserialize` module is not
under src/, but every field's type is pinned by that use: `status` is compared
with 0 as a signed integer, `short_remaining`/`long_remaining` are stored
directly into `AtomicU32`, `short_limit`/`long_limit` are strings that get
`.parse()`d, `message` is a string moved into `Error::InvalidCode`). -/
structure SauceHeader where
  status : Int
  message : String
  short_remaining : Nat
  long_remaining : Nat
  short_limit : String
  long_limit : String
deriving DecidableEq

/-- Per-row header block: `similarity` is a decimal string, `index_name` the
provider's raw label (`.split(':')`/`.split('#')` are applied to it),
`index_id` a numeric id, `thumbnail` a URL string. -/
structure ResultHeader where
  similarity : String
  index_name : String
  index_id : Nat
  thumbnail : String
deriving DecidableEq

/-- Per-row data block, as used in `process_results`.  `additional_fields` is
an opaque provider-specific JSON value, modelled as an uninterpreted string
(the code only passes it through `serde_json::to_value`, which succeeds on any
`serde_json::Value`). -/
structure ResultData where
  ext_urls : List String
  title : Option String
  additional_fields : Option String
  source : Option String
  creator : Option String
  eng_name : Option String
  jp_name : Option String
deriving DecidableEq

/-- One result row of the decoded response. -/
structure SauceItem where
  header : ResultHeader
  data : ResultData
deriving DecidableEq

/-- The decoded response (`SauceResult` in the `deserialize` module): a header
block and an optional list of result rows. -/
structure SauceResult where
  header : SauceHeader
  results : Option (List SauceItem)
deriving DecidableEq

/-- The domain result record ("Sauce").  The `sauce` module is not under
src/; the fields and their order are pinned by the `sauce::new_sauce` call
sites in `process_results` (handler.rs lines 501-534) and by the field
accesses `ext_urls`, `index`, `similarity` in the tests, matching spec
section 3's SearchResult. -/
structure Sauce where
  ext_urls : List String
  title : Option String
  site : String
  index : Nat
  index_id : Nat
  similarity : Rat
  thumbnail : String
  additional_fields : Option String
  source : Option String
  creator : Option String
  eng_name : Option String
  jp_name : Option String
deriving DecidableEq

/-- The `Handler` state from src/src/handler.rs: fixed configuration plus the
shared mutable fields (atomics and the mutex-guarded default similarity),
modelled as plain fields threaded sequentially. -/
structure Handler where
  api_key : String
  output_type : Int
  testmode : Option Nat
  db_mask : Option (List Nat)
  db_mask_i : Option (List Nat)
  db : Option Nat
  num_results : Option Nat
  short_limit : Nat
  long_limit : Nat
  short_left : Nat
  long_left : Nat
  min_similarity : Rat
  empty_filter_enabled : Bool
deriving DecidableEq

/-- `Handler::new` (handler.rs lines 354-373): default counters 12/200/12/200,
default minimum similarity 0.0, empty filter off, output type 2. -/
def Handler.new (api_key : String) (testmode : Option Nat) (db_mask : Option (List Nat))
    (db_mask_i : Option (List Nat)) (db : Option Nat) (num_results : Option Nat) : Handler :=
  { api_key := api_key
    output_type := 2
    testmode := testmode
    db_mask := db_mask
    db_mask_i := db_mask_i
    db := db
    num_results := num_results
    short_limit := 12
    long_limit := 200
    short_left := 12
    long_left := 200
    min_similarity := 0
    empty_filter_enabled := false }

/-- `Handler::set_min_similarity` (handler.rs lines 385-389): stores the new
default with no validation of any kind. -/
def Handler.set_min_similarity (h : Handler) (min_similarity : Rat) : Handler :=
  { h with min_similarity := min_similarity }

/-- `Handler::set_empty_filter` (handler.rs lines 401-403). -/
def Handler.set_empty_filter (h : Handler) (enabled : Bool) : Handler :=
  { h with empty_filter_enabled := enabled }

/-- `Handler::get_source` (handler.rs lines 279-281) looks the index up in
`constants::LIST_OF_SOURCES`; that table is not under src/, so the catalog
that is (the `Source` enum of constants.rs, via `from_u32`) stands in for it:
both map a known index to its catalog entry and an unknown index to `None`. -/
def Handler.get_source (index : Nat) : Option Source :=
  Source.from_u32 index

/-- Outcome of result processing: the `Ok` list, a typed `Err`, or a Rust
panic (which escapes the typed-error channel entirely). -/
inductive ProcOut where
  | ok : List Sauce → ProcOut
  | error : Error → ProcOut
  | panicked : ProcOut
deriving DecidableEq

/-- The `Sauce` record pushed by `process_results` for an admitted row whose
index parsed to `idx` and whose similarity parsed to `sim` (handler.rs lines
497-535): if `get_source` resolves the index, the catalog name is used and
`additional_fields` is carried over; otherwise the raw `index_name` label is
used and `additional_fields` is `None`. -/
def mkSauce (item : SauceItem) (idx : Nat) (sim : Rat) : Sauce :=
  match Handler.get_source idx with
  | some src =>
    { ext_urls := item.data.ext_urls
      title := item.data.title
      site := src.name
      index := idx
      index_id := item.header.index_id
      similarity := sim
      thumbnail := item.header.thumbnail
      additional_fields := item.data.additional_fields
      source := item.data.source
      creator := item.data.creator
      eng_name := item.data.eng_name
      jp_name := item.data.jp_name }
  | none =>
    { ext_urls := item.data.ext_urls
      title := item.data.title
      site := item.header.index_name
      index := idx
      index_id := item.header.index_id
      similarity := sim
      thumbnail := item.header.thumbnail
      additional_fields := none
      source := item.data.source
      creator := item.data.creator
      eng_name := item.data.eng_name
      jp_name := item.data.jp_name }

/-- The `'#'`-separated parts of the part of `index_name` before the first
`':'`, i.e. `index_name.split(':').collect()[0].split('#').collect()` from
handler.rs lines 491-494.  (`split(':')` always yields at least one part, so
the `[0]` indexing cannot panic; `headD` is exact.) -/
def indexNameParts (index_name : String) : List (List Char) :=
  splitOnChar hashChar ((splitOnChar colonChar index_name.data).headD [])

/-- The row loop of `process_results` (handler.rs lines 486-537), one row at a
time: parse the similarity string (`?` propagates a parse failure), test the
admission condition exactly as written —
`sim >= actual_min_sim && ((filter && !ext_urls.is_empty()) || !filter)` —
and for an admitted row take element `[1]` of the `'#'`-split of the label
(an out-of-bounds panic when there is no `'#'`), parse it as `u32` (`?`), and
push the corresponding `Sauce`. -/
def processRows (h : Handler) (actual_min_sim : Rat) : List SauceItem → ProcOut
  | [] => ProcOut.ok []
  | item :: rest =>
    match parseF64 item.header.similarity with
    | none => ProcOut.error (Error.InvalidParse parseFloatErrorMessage)
    | some sauce_min_sim =>
      if (decide (actual_min_sim ≤ sauce_min_sim) &&
          ((h.empty_filter_enabled && !item.data.ext_urls.isEmpty) || !h.empty_filter_enabled)) then
        match indexNameParts item.header.index_name with
        | _ :: second :: _ =>
          match parseU32Chars second with
          | none => ProcOut.error (Error.InvalidParse parseIntErrorMessage)
          | some actual_index =>
            match processRows h actual_min_sim rest with
            | ProcOut.ok tail => ProcOut.ok (mkSauce item actual_index sauce_min_sim :: tail)
            | out => out
        | _ => ProcOut.panicked
      else processRows h actual_min_sim rest

/-- `Handler::process_results` (handler.rs lines 473-543).  On `status >= 0`
it first stores `short_remaining`/`long_remaining` into the `short_left`/
`long_left` counters, then parses and stores `short_limit` and `long_limit`
(each `?` aborting with a parse error, the stores already made kept), then —
when a results list is present — runs the row loop with the effective minimum
similarity `min_similarity.unwrap_or_else(|| *self.min_similarity.lock())`.
On `status < 0` it returns `Error::InvalidCode` with the handler untouched.
The returned `Handler` is the state after the call. -/
def process_results (h : Handler) (returned_sauce : SauceResult) (min_similarity : Option Rat) :
    Handler × ProcOut :=
  if 0 ≤ returned_sauce.header.status then
    let h1 := { h with
      short_left := returned_sauce.header.short_remaining
      long_left := returned_sauce.header.long_remaining }
    match parseU32 returned_sauce.header.short_limit with
    | none => (h1, ProcOut.error (Error.InvalidParse parseIntErrorMessage))
    | some sl =>
      let h2 := { h1 with short_limit := sl }
      match parseU32 returned_sauce.header.long_limit with
      | none => (h2, ProcOut.error (Error.InvalidParse parseIntErrorMessage))
      | some ll =>
        let h3 := { h2 with long_limit := ll }
        match returned_sauce.results with
        | none => (h3, ProcOut.ok [])
        | some res =>
          let actual_min_sim := min_similarity.getD h3.min_similarity
          (h3, processRows h3 actual_min_sim res)
  else
    (h, ProcOut.error (Error.InvalidCode returned_sauce.header.status returned_sauce.header.message))

/-- `Handler::is_valid_min_sim` (handler.rs lines 453-461): only the supplied
per-call value is examined — `self` is never read. -/
def is_valid_min_sim (min_similarity : Option Rat) : Bool :=
  match min_similarity with
  | some x => decide (0 ≤ x ∧ x ≤ 100)
  | none => true

/-- `Handler::is_valid_num_res` (handler.rs lines 463-471): only the supplied
per-call value is examined — `self` is never read. -/
def is_valid_num_res (num_results : Option Nat) : Bool :=
  match num_results with
  | some x => decide (x ≤ 999)
  | none => true

/-- The validation prefix of `Handler::get_sauce` (handler.rs lines 554-561):
everything that runs before `generate_url`, the file read and the HTTP send.
`some e` is the early `return Err(e)`; `none` means validation passed and the
call proceeds to I/O.  The handler argument mirrors `&self`, which the two
validators ignore. -/
def get_sauce_check (_h : Handler) (num_results : Option Nat) (min_similarity : Option Rat) :
    Option Error :=
  if !is_valid_min_sim min_similarity then
    some (Error.InvalidParameters minSimErrorMessage)
  else if !is_valid_num_res num_results then
    some (Error.InvalidParameters numResErrorMessage)
  else none

/-- The admission predicate of spec section 4.3 / claim C3, stated the way the
spec words it: the row's similarity string parses and the parsed value meets
the effective minimum, and the empty-URL filter is disabled or the row's
external-URL list is non-empty. -/
def rowAdmitted (effMin : Rat) (filt : Bool) (item : SauceItem) : Bool :=
  match parseF64 item.header.similarity with
  | none => false
  | some sim => decide (effMin ≤ sim) && (!filt || !item.data.ext_urls.isEmpty)

/-- The numeric index `process_results` extracts from a row label, when it
extracts one: element `[1]` of the `'#'`-split, parsed as `u32`. -/
def rowIndex (item : SauceItem) : Option Nat :=
  match indexNameParts item.header.index_name with
  | _ :: second :: _ => parseU32Chars second
  | _ => none

/-- The `Sauce` an admitted row maps to (total version: the defaults are
never consulted on rows `process_results` actually converts, which is what
the theorems hypothesise). -/
def rowSauce (item : SauceItem) : Sauce :=
  mkSauce item ((rowIndex item).getD 0) ((parseF64 item.header.similarity).getD 0)

/-- A default handler, as built by `HandlerBuilder::default().build()`. -/
def handler0 : Handler :=
  Handler.new "" none none none none none

/-- A result row with the given similarity string, raw label and URL list
(id 1, a fixed thumbnail, no optional data fields). -/
def sampleRow (sim index_name : String) (urls : List String) : SauceItem :=
  { header := { similarity := sim, index_name := index_name, index_id := 1, thumbnail := "thumb" }
    data := { ext_urls := urls, title := none, additional_fields := none, source := none,
              creator := none, eng_name := none, jp_name := none } }

/-- A provider-error response: negative status with the message the provider
sends for a bad key. -/
def rsInvalidKey : SauceResult :=
  { header := { status := -1, message := "Invalid API key", short_remaining := 1,
                long_remaining := 2, short_limit := "12", long_limit := "200" }
    results := none }

/-- A success response with no results list. -/
def rsEmpty : SauceResult :=
  { header := { status := 0, message := "ok", short_remaining := 11,
                long_remaining := 199, short_limit := "12", long_limit := "200" }
    results := none }

/-- A success response whose `short_limit` header string is not numeric. -/
def rsBadLimit : SauceResult :=
  { header := { status := 0, message := "ok", short_remaining := 3,
                long_remaining := 4, short_limit := "oops", long_limit := "200" }
    results := none }

/-- The three rows of the spec section 8 example: similarities 10.0, 60.0 and
90.0 (the third row against an index the catalog does not know). -/
def rows3 : List SauceItem :=
  [sampleRow "10.0" "Index #5: Pixiv" ["a"],
   sampleRow "60.0" "Index #9: Danbooru" ["b"],
   sampleRow "90.0" "Index #999: Unknown" []]

/-- A success response carrying `rows3`. -/
def rsThreeRows : SauceResult :=
  { header := { status := 0, message := "ok", short_remaining := 11,
                long_remaining := 199, short_limit := "12", long_limit := "200" }
    results := some rows3 }

/-- The handler state after `process_results` on `rsThreeRows`. -/
def handler0after : Handler :=
  { handler0 with short_left := 11, long_left := 199, short_limit := 12, long_limit := 200 }

/-- The rows of `rsThreeRows` that survive the threshold 50. -/
def sauces50 : List Sauce :=
  [rowSauce (sampleRow "60.0" "Index #9: Danbooru" ["b"]),
   rowSauce (sampleRow "90.0" "Index #999: Unknown" [])]

/-- A success response with one admitted row whose `index_name` contains no
`'#'`. -/
def rsNoHash : SauceResult :=
  { header := { status := 0, message := "ok", short_remaining := 11,
                long_remaining := 199, short_limit := "12", long_limit := "200" }
    results := some [sampleRow "90.0" "Pixiv" ["a"]] }

/-- A success response whose first row is admitted but has a `'#'`-less label
and whose second row has a malformed similarity string. -/
def rsPanicBeforeBadSim : SauceResult :=
  { header := { status := 0, message := "ok", short_remaining := 11,
                long_remaining := 199, short_limit := "12", long_limit := "200" }
    results := some [sampleRow "90.0" "Pixiv" ["a"], sampleRow "abc" "Index #5: x" []] }

/-- A success response with a single malformed-similarity row (and a
well-formed `'#'` label). -/
def rsBadSim : SauceResult :=
  { header := { status := 0, message := "ok", short_remaining := 11,
                long_remaining := 199, short_limit := "12", long_limit := "200" }
    results := some [sampleRow "abc" "Index #5: x" []] }

/-- Bit `b` of the accumulated mask flips once per list element whose shifted
position is `b`: the XOR accumulation makes the mask a function of each
position's multiplicity parity. -/
theorem generate_bitmask_go_testBit (b : Nat) (l : List Nat) :
    ∀ acc r : Nat, generate_bitmask_go acc l = some r →
      r.testBit b =
        ((acc.testBit b).xor
          (decide ((l.countP fun m => decide (shiftedBit m = b)) % 2 = 1))) := by
  induction l with
  | nil =>
    intro acc r h
    simp only [generate_bitmask_go, Option.some.injEq] at h
    subst h
    simp
  | cons m rest ih =>
    intro acc r h
    simp only [generate_bitmask_go] at h
    by_cases hfit : 2 ^ (m - (if 18 ≤ m then 1 else 0)) < 2 ^ 32
    · rw [if_pos hfit] at h
      have hrec := ih _ _ h
      rw [hrec, Nat.testBit_xor, Nat.testBit_two_pow, List.countP_cons, Bool.xor_assoc]
      congr 1
      simp only [shiftedBit]
      by_cases hmb : m - (if 18 ≤ m then 1 else 0) = b
      · simp only [hmb, decide_True, Bool.true_xor, if_true]
        rcases Nat.mod_two_eq_zero_or_one
            (rest.countP fun m => decide (m - (if 18 ≤ m then 1 else 0) = b)) with hc | hc
        · have h1 : ((rest.countP fun m => decide (m - (if 18 ≤ m then 1 else 0) = b)) + 1) % 2
              = 1 := by omega
          simp [hc, h1]
        · have h1 : ((rest.countP fun m => decide (m - (if 18 ≤ m then 1 else 0) = b)) + 1) % 2
              = 0 := by omega
          simp [hc, h1]
      · simp [hmb]
    · rw [if_neg hfit] at h
      exact absurd h (by simp)

/-- Claim C8: `generate_bitmask` is not total over the catalog's own indices:
for every catalog source with index at least 33 (PortalGraphics.net through
Skeb) the shifted exponent is at least 32, so `u32::pow(2, m - offset)`
exceeds the `u32` range and no 32-bit mask value is produced (modelled as
`none`: a checked-arithmetic panic, or a silently lost bit with wrapping). -/
theorem claim8_high_index_overflow (S : Source) (h : 33 ≤ S.index) :
    2 ^ 32 ≤ 2 ^ (S.index - 1) ∧ generate_bitmask [S.index] = none := by
  cases S <;> revert h <;> decide

/-- Witness for claim C8 at the concrete source Skeb (index 44, which would
need `2 ^ 43`). -/
theorem claim8_witness :
    2 ^ 32 ≤ 2 ^ (Source.Skeb.index - 1) ∧ generate_bitmask [Source.Skeb.index] = none :=
  claim8_high_index_overflow Source.Skeb (by decide)

/-- Counterexample to claim C1 as stated: Skeb is in the catalog with index
44, yet encoding the singleton `[Source.Skeb.index]` produces no mask at all
(overflow), rather than a mask with exactly bit 43 set. -/
theorem claim1_counterexample :
    Source.Skeb.index = 44 ∧ generate_bitmask [Source.Skeb.index] = none := by
  decide

/-- Claim C1 (amended): for every catalog source whose index is at most 32 —
so that the shifted exponent fits in a `u32` — encoding the singleton set
produces the mask `2 ^ (shifted index)`, i.e. exactly one bit set, at index
for index < 18 and index − 1 for index ≥ 18. -/
theorem claim1_singleton_bit (S : Source) (h : S.index ≤ 32) :
    generate_bitmask [S.index] = some (2 ^ shiftedBit S.index) := by
  cases S <;> revert h <;> decide

/-- Witness for claim C1 at the concrete source Pixiv: index 5 encodes to bit
5, the known-good encoding the spec cites. -/
theorem claim1_witness : generate_bitmask [Source.Pixiv.index] = some (2 ^ 5) :=
  claim1_singleton_bit Source.Pixiv (by decide)

/-- Claim C10: `generate_bitmask` combines bits with XOR, so bit `b` of any
produced mask equals the parity of the number of input entries whose shifted
position is `b` — the encoding is a function of each index's multiplicity
parity in the input list, not of the set of selected sources. -/
theorem claim10_xor_parity (l : List Nat) (r b : Nat) (h : generate_bitmask l = some r) :
    r.testBit b = decide ((l.countP fun m => decide (shiftedBit m = b)) % 2 = 1) := by
  have hgo := generate_bitmask_go_testBit b l 0 r h
  simpa using hgo

/-- Witness for claim C10 at the concrete list `[5, 5]`: the even multiplicity
cancels, the mask is 0 and its bit 5 is clear. -/
theorem claim10_witness :
    generate_bitmask [5, 5] = some 0 ∧
      Nat.testBit 0 5 = decide ((([5, 5].countP fun m => decide (shiftedBit m = 5)) % 2 = 1)) :=
  ⟨rfl, claim10_xor_parity [5, 5] 0 5 rfl⟩

/-- The row-loop admission test as written in the code,
`(filter && !empty) || !filter`, agrees with the spec's
`!filter || !empty` (the form used in `rowAdmitted`). -/
theorem admission_cond_eq (filt e : Bool) :
    ((filt && !e) || !filt) = (!filt || !e) := by
  cases filt <;> cases e <;> rfl

/-- When the row loop returns an `Ok` list, that list is exactly the admitted
rows, in input order, each mapped to its `Sauce`. -/
theorem processRows_ok_filter (h : Handler) (a : Rat) :
    ∀ (rows : List SauceItem) (l : List Sauce), processRows h a rows = ProcOut.ok l →
      l = (rows.filter (rowAdmitted a h.empty_filter_enabled)).map rowSauce := by
  intro rows
  induction rows with
  | nil =>
    intro l hl
    simp only [processRows, ProcOut.ok.injEq] at hl
    simp [← hl]
  | cons item rest ih =>
    intro l hl
    simp only [processRows] at hl
    cases hs : parseF64 item.header.similarity with
    | none => simp only [hs] at hl; exact absurd hl (by simp)
    | some sim =>
      simp only [hs] at hl
      have hadm : rowAdmitted a h.empty_filter_enabled item
          = (decide (a ≤ sim) &&
              ((h.empty_filter_enabled && !item.data.ext_urls.isEmpty)
                || !h.empty_filter_enabled)) := by
        rw [rowAdmitted, hs, admission_cond_eq]
      by_cases hc : (decide (a ≤ sim) &&
          ((h.empty_filter_enabled && !item.data.ext_urls.isEmpty)
            || !h.empty_filter_enabled)) = true
      · rw [if_pos hc] at hl
        cases hp : indexNameParts item.header.index_name with
        | nil => simp only [hp] at hl; exact absurd hl (by simp)
        | cons p0 ptail =>
          cases ptail with
          | nil => simp only [hp] at hl; exact absurd hl (by simp)
          | cons second prest =>
            simp only [hp] at hl
            cases hi : parseU32Chars second with
            | none => simp only [hi] at hl; exact absurd hl (by simp)
            | some idx =>
              simp only [hi] at hl
              cases hrec : processRows h a rest with
              | ok tail =>
                simp only [hrec] at hl
                simp only [ProcOut.ok.injEq] at hl
                have htail := ih tail hrec
                have hrs : rowSauce item = mkSauce item idx sim := by
                  simp only [rowSauce, rowIndex, hp, hi, hs, Option.getD_some]
                rw [List.filter_cons, if_pos (by rw [hadm]; exact hc)]
                simp only [List.map_cons, ← hl, htail, hrs]
              | error e => simp only [hrec] at hl; exact absurd hl (by simp)
              | panicked => simp only [hrec] at hl; exact absurd hl (by simp)
      · rw [if_neg hc] at hl
        have htail := ih l hl
        rw [List.filter_cons, if_neg (by rw [hadm]; exact hc)]
        exact htail

/-- A row whose similarity string does not parse prevents the row loop from
returning any `Ok` list: the hard parse error (or an earlier row's failure)
aborts the whole call. -/
theorem processRows_bad_sim_not_ok (h : Handler) (a : Rat) :
    ∀ rows : List SauceItem, (∃ it ∈ rows, parseF64 it.header.similarity = none) →
      ∀ l, processRows h a rows ≠ ProcOut.ok l := by
  intro rows
  induction rows with
  | nil => rintro ⟨it, hit, -⟩; exact absurd hit (by simp)
  | cons item rest ih =>
    rintro ⟨it, hit, hbad⟩ l hl
    simp only [processRows] at hl
    rcases List.mem_cons.mp hit with hhead | htail
    · subst hhead
      simp only [hbad] at hl
      exact absurd hl (by simp)
    · cases hs : parseF64 item.header.similarity with
      | none => simp only [hs] at hl; exact absurd hl (by simp)
      | some sim =>
        simp only [hs] at hl
        by_cases hc : (decide (a ≤ sim) &&
            ((h.empty_filter_enabled && !item.data.ext_urls.isEmpty)
              || !h.empty_filter_enabled)) = true
        · rw [if_pos hc] at hl
          cases hp : indexNameParts item.header.index_name with
          | nil => simp only [hp] at hl; exact absurd hl (by simp)
          | cons p0 ptail =>
            cases ptail with
            | nil => simp only [hp] at hl; exact absurd hl (by simp)
            | cons second prest =>
              simp only [hp] at hl
              cases hi : parseU32Chars second with
              | none => simp only [hi] at hl; exact absurd hl (by simp)
              | some idx =>
                simp only [hi] at hl
                cases hrec : processRows h a rest with
                | ok tail => exact ih ⟨it, htail, hbad⟩ tail hrec
                | error e => simp only [hrec] at hl; exact absurd hl (by simp)
                | panicked => simp only [hrec] at hl; exact absurd hl (by simp)
        · rw [if_neg hc] at hl
          exact ih ⟨it, htail, hbad⟩ l hl

/-- When every row's label has a `'#'`-separated part (the `'#'`-split of the
part before the first `':'` has at least two pieces), the row loop cannot
panic. -/
theorem processRows_no_panic (h : Handler) (a : Rat) :
    ∀ rows : List SauceItem, (∀ it ∈ rows, 2 ≤ (indexNameParts it.header.index_name).length) →
      processRows h a rows ≠ ProcOut.panicked := by
  intro rows
  induction rows with
  | nil => intro _ hl; exact absurd hl (by simp [processRows])
  | cons item rest ih =>
    intro hall hl
    simp only [processRows] at hl
    cases hs : parseF64 item.header.similarity with
    | none => simp only [hs] at hl; exact absurd hl (by simp)
    | some sim =>
      simp only [hs] at hl
      by_cases hc : (decide (a ≤ sim) &&
          ((h.empty_filter_enabled && !item.data.ext_urls.isEmpty)
            || !h.empty_filter_enabled)) = true
      · rw [if_pos hc] at hl
        have hlen := hall item (List.mem_cons_self item rest)
        cases hp : indexNameParts item.header.index_name with
        | nil => simp only [hp] at hlen; exact absurd hlen (by simp)
        | cons p0 ptail =>
          cases ptail with
          | nil => simp only [hp] at hlen; exact absurd hlen (by simp)
          | cons second prest =>
            simp only [hp] at hl
            cases hi : parseU32Chars second with
            | none => simp only [hi] at hl; exact absurd hl (by simp)
            | some idx =>
              simp only [hi] at hl
              cases hrec : processRows h a rest with
              | ok tail => simp only [hrec] at hl; exact absurd hl (by simp)
              | error e => simp only [hrec] at hl; exact absurd hl (by simp)
              | panicked =>
                exact ih (fun it hit => hall it (List.mem_cons_of_mem item hit)) hrec
      · rw [if_neg hc] at hl
        exact ih (fun it hit => hall it (List.mem_cons_of_mem item hit)) hl

/-- Every typed error the row loop produces is a parse error: either the
similarity float parse or the index integer parse failed. -/
theorem processRows_error_shape (h : Handler) (a : Rat) :
    ∀ (rows : List SauceItem) (e : Error), processRows h a rows = ProcOut.error e →
      e = Error.InvalidParse parseFloatErrorMessage ∨ e = Error.InvalidParse parseIntErrorMessage := by
  intro rows
  induction rows with
  | nil => intro e hl; exact absurd hl (by simp [processRows])
  | cons item rest ih =>
    intro e hl
    simp only [processRows] at hl
    cases hs : parseF64 item.header.similarity with
    | none =>
      simp only [hs] at hl
      simp only [ProcOut.error.injEq] at hl
      exact Or.inl hl.symm
    | some sim =>
      simp only [hs] at hl
      by_cases hc : (decide (a ≤ sim) &&
          ((h.empty_filter_enabled && !item.data.ext_urls.isEmpty)
            || !h.empty_filter_enabled)) = true
      · rw [if_pos hc] at hl
        cases hp : indexNameParts item.header.index_name with
        | nil => simp only [hp] at hl; exact absurd hl (by simp)
        | cons p0 ptail =>
          cases ptail with
          | nil => simp only [hp] at hl; exact absurd hl (by simp)
          | cons second prest =>
            simp only [hp] at hl
            cases hi : parseU32Chars second with
            | none =>
              simp only [hi] at hl
              simp only [ProcOut.error.injEq] at hl
              exact Or.inr hl.symm
            | some idx =>
              simp only [hi] at hl
              cases hrec : processRows h a rest with
              | ok tail => simp only [hrec] at hl; exact absurd hl (by simp)
              | error e2 =>
                simp only [hrec] at hl
                simp only [ProcOut.error.injEq] at hl
                exact hl ▸ ih e2 hrec
              | panicked => simp only [hrec] at hl; exact absurd hl (by simp)
      · rw [if_neg hc] at hl
        exact ih e hl

/-- A row with an unparsable similarity string, together with `'#'`-containing
labels everywhere, forces the row loop into a parse error. -/
theorem processRows_bad_forces_parse_error (h : Handler) (a : Rat) (rows : List SauceItem)
    (hbad : ∃ it ∈ rows, parseF64 it.header.similarity = none)
    (hhash : ∀ it ∈ rows, 2 ≤ (indexNameParts it.header.index_name).length) :
    ∃ m, processRows h a rows = ProcOut.error (Error.InvalidParse m) := by
  cases hout : processRows h a rows with
  | ok l => exact absurd hout (processRows_bad_sim_not_ok h a rows hbad l)
  | panicked => exact absurd hout (processRows_no_panic h a rows hhash)
  | error e =>
    rcases processRows_error_shape h a rows e hout with he | he
    · exact ⟨parseFloatErrorMessage, by rw [he]⟩
    · exact ⟨parseIntErrorMessage, by rw [he]⟩

/-- Claim C3: whenever `process_results` returns a result sequence for a
response with non-negative status and a present results list, that sequence is
exactly the rows admitted by the spec's predicate — parsed similarity at least
the effective minimum (the per-call override if supplied, else the handler's
configured default) and (filter disabled or non-empty `ext_urls`) — in input
order, with no re-sorting and no deduplication, each mapped to its `Sauce`. -/
theorem claim3_filtered_in_order (h h' : Handler) (rs : SauceResult) (min_similarity : Option Rat)
    (rows : List SauceItem) (l : List Sauce)
    (hst : 0 ≤ rs.header.status) (hres : rs.results = some rows)
    (hok : process_results h rs min_similarity = (h', ProcOut.ok l)) :
    l = (rows.filter (rowAdmitted (min_similarity.getD h.min_similarity)
          h.empty_filter_enabled)).map rowSauce := by
  cases hsl : parseU32 rs.header.short_limit with
  | none =>
    simp only [process_results, if_pos hst, hres, hsl, Prod.mk.injEq] at hok
    exact absurd hok.2 (by simp)
  | some sl =>
    cases hll : parseU32 rs.header.long_limit with
    | none =>
      simp only [process_results, if_pos hst, hres, hsl, hll, Prod.mk.injEq] at hok
      exact absurd hok.2 (by simp)
    | some ll =>
      simp only [process_results, if_pos hst, hres, hsl, hll, Prod.mk.injEq] at hok
      have hfilter := processRows_ok_filter _ _ rows l hok.2
      exact hfilter

/-- Witness for claim C3 on the spec section 8 example: threshold 50 admits
exactly the rows with similarities 60.0 and 90.0, in that order. -/
theorem claim3_witness :
    sauces50 = (rows3.filter (rowAdmitted ((some (50 : Rat)).getD handler0.min_similarity)
      handler0.empty_filter_enabled)).map rowSauce :=
  claim3_filtered_in_order handler0 handler0after rsThreeRows (some 50) rows3 sauces50
    (by decide) (by decide) (by decide)

/-- Claim C4: a response with negative header status yields exactly
`Error::InvalidCode` with that status and the header message verbatim, and
none of the four rate-limit counters change on this path. -/
theorem claim4_negative_status (h : Handler) (rs : SauceResult) (min_similarity : Option Rat)
    (hst : rs.header.status < 0) :
    process_results h rs min_similarity
      = (h, ProcOut.error (Error.InvalidCode rs.header.status rs.header.message)) := by
  simp only [process_results, if_neg (not_le.mpr hst)]

/-- Witness for claim C4 at the concrete response with status −1 and message
"Invalid API key", on a default handler. -/
theorem claim4_witness :
    process_results handler0 rsInvalidKey none
      = (handler0, ProcOut.error (Error.InvalidCode (-1) "Invalid API key")) :=
  claim4_negative_status handler0 rsInvalidKey none (by decide)

/-- Claim C5 (amended): a response with non-negative status whose results list
contains a row with a malformed similarity string never yields a result
sequence — in particular no partial list of the preceding rows; and whenever
every row's label contains a `'#'` part (so no admitted row can hit the
out-of-bounds indexing first), the call fails with a parse error. -/
theorem claim5_malformed_similarity (h : Handler) (rs : SauceResult) (min_similarity : Option Rat)
    (rows : List SauceItem)
    (hst : 0 ≤ rs.header.status) (hres : rs.results = some rows)
    (hbad : ∃ it ∈ rows, parseF64 it.header.similarity = none) :
    (∀ l, (process_results h rs min_similarity).2 ≠ ProcOut.ok l) ∧
    ((∀ it ∈ rows, 2 ≤ (indexNameParts it.header.index_name).length) →
      ∃ m, (process_results h rs min_similarity).2 = ProcOut.error (Error.InvalidParse m)) := by
  cases hsl : parseU32 rs.header.short_limit with
  | none =>
    constructor
    · intro l hl
      simp only [process_results, if_pos hst, hres, hsl] at hl
      exact absurd hl (by simp)
    · intro _
      exact ⟨parseIntErrorMessage, by simp only [process_results, if_pos hst, hres, hsl]⟩
  | some sl =>
    cases hll : parseU32 rs.header.long_limit with
    | none =>
      constructor
      · intro l hl
        simp only [process_results, if_pos hst, hres, hsl, hll] at hl
        exact absurd hl (by simp)
      · intro _
        exact ⟨parseIntErrorMessage, by simp only [process_results, if_pos hst, hres, hsl, hll]⟩
    | some ll =>
      have hpr : (process_results h rs min_similarity).2
          = processRows
              { h with
                short_left := rs.header.short_remaining
                long_left := rs.header.long_remaining
                short_limit := sl
                long_limit := ll }
              (min_similarity.getD h.min_similarity) rows := by
        simp only [process_results, if_pos hst, hres, hsl, hll]
      constructor
      · intro l
        rw [hpr]
        exact processRows_bad_sim_not_ok _ _ rows hbad l
      · intro hhash
        rw [hpr]
        exact processRows_bad_forces_parse_error _ _ rows hbad hhash

/-- Witness for claim C5 at a concrete response whose only row has similarity
string "abc": the call yields a parse error and no list. -/
theorem claim5_witness :
    (∀ l, (process_results handler0 rsBadSim none).2 ≠ ProcOut.ok l) ∧
    ((∀ it ∈ [sampleRow "abc" "Index #5: x" []],
        2 ≤ (indexNameParts it.header.index_name).length) →
      ∃ m, (process_results handler0 rsBadSim none).2 = ProcOut.error (Error.InvalidParse m)) :=
  claim5_malformed_similarity handler0 rsBadSim none [sampleRow "abc" "Index #5: x" []]
    (by decide) (by decide) ⟨sampleRow "abc" "Index #5: x" [], by decide, by decide⟩

/-- Counterexample to claim C5 as stated: this response's second row has the
malformed similarity string "abc", yet the call does not return a parse error
— the first (admitted) row's label "Pixiv" has no `'#'`, so the out-of-bounds
`[1]` indexing panics before the malformed similarity is ever reached. -/
theorem claim5_counterexample :
    parseF64 "abc" = none ∧
      (process_results handler0 rsPanicBeforeBadSim none).2 = ProcOut.panicked := by
  constructor
  · decide
  · decide

/-- Claim C6: on a response with non-negative status (whose limit header
strings are the numerals they carry), all four rate-limit counters are updated
from the header fields no matter what the row processing produces, and an
absent results list yields the empty sequence, not an error. -/
theorem claim6_counters_updated (h : Handler) (rs : SauceResult) (min_similarity : Option Rat)
    (sl ll : Nat) (hst : 0 ≤ rs.header.status)
    (hsl : parseU32 rs.header.short_limit = some sl)
    (hll : parseU32 rs.header.long_limit = some ll) :
    (process_results h rs min_similarity).1.short_left = rs.header.short_remaining ∧
    (process_results h rs min_similarity).1.long_left = rs.header.long_remaining ∧
    (process_results h rs min_similarity).1.short_limit = sl ∧
    (process_results h rs min_similarity).1.long_limit = ll ∧
    (rs.results = none → (process_results h rs min_similarity).2 = ProcOut.ok []) := by
  cases hres : rs.results with
  | none => simp [process_results, if_pos hst, hsl, hll, hres]
  | some rows => simp [process_results, if_pos hst, hsl, hll, hres]

/-- Witness for claim C6 at a concrete response with no results list: counters
become 11/199/12/200 and the call returns the empty sequence. -/
theorem claim6_witness :
    (process_results handler0 rsEmpty none).1.short_left = 11 ∧
    (process_results handler0 rsEmpty none).1.long_left = 199 ∧
    (process_results handler0 rsEmpty none).1.short_limit = 12 ∧
    (process_results handler0 rsEmpty none).1.long_limit = 200 ∧
    (rsEmpty.results = none → (process_results handler0 rsEmpty none).2 = ProcOut.ok []) :=
  claim6_counters_updated handler0 rsEmpty none 12 200 (by decide) (by decide) (by decide)

/-- Claim C7 evaluated at the failing input: a response row whose `index_name`
contains no `'#'` makes `process_results` panic (out-of-bounds `Vec` indexing
at `split('#').collect::<Vec<&str>>()[1]`) instead of surfacing a typed error
value — contradicting the spec's propagation policy. -/
theorem claim7_no_hash_panics :
    (process_results handler0 rsNoHash none).2 = ProcOut.panicked := by
  decide

/-- Claim C9: on a response with non-negative status whose `short_limit` or
`long_limit` header string fails to parse, the call returns a parse error, but
`short_left` and `long_left` have already been overwritten from the header —
the error path is not atomic with respect to the rate-limit state. -/
theorem claim9_left_counters_overwritten (h : Handler) (rs : SauceResult)
    (min_similarity : Option Rat) (hst : 0 ≤ rs.header.status)
    (hbad : parseU32 rs.header.short_limit = none ∨ parseU32 rs.header.long_limit = none) :
    (process_results h rs min_similarity).1.short_left = rs.header.short_remaining ∧
    (process_results h rs min_similarity).1.long_left = rs.header.long_remaining ∧
    (process_results h rs min_similarity).2
      = ProcOut.error (Error.InvalidParse parseIntErrorMessage) := by
  rcases hbad with hb | hb
  · simp [process_results, if_pos hst, hb]
  · cases hsl : parseU32 rs.header.short_limit with
    | none => simp [process_results, if_pos hst, hsl]
    | some sl => simp [process_results, if_pos hst, hsl, hb]

/-- Witness for claim C9 at a concrete response whose `short_limit` string is
"oops": the remaining-counters are overwritten to 3 and 4, then the parse
error is returned. -/
theorem claim9_witness :
    (process_results handler0 rsBadLimit none).1.short_left = 3 ∧
    (process_results handler0 rsBadLimit none).1.long_left = 4 ∧
    (process_results handler0 rsBadLimit none).2
      = ProcOut.error (Error.InvalidParse parseIntErrorMessage) :=
  claim9_left_counters_overwritten handler0 rsBadLimit none (by decide) (Or.inl (by decide))

/-- Claim C2 (amended): a per-call result cap above 999 or a supplied per-call
minimum similarity outside [0, 100] makes `get_sauce` return
`InvalidParameters` from its validation prefix, before `generate_url`, the
file read and the HTTP send.  (The config-level default minimum similarity is
not validated — see the counterexample.) -/
theorem claim2_percall_validation (h : Handler) (num_results : Option Nat)
    (min_similarity : Option Rat)
    (hbad : (∃ n, num_results = some n ∧ 999 < n) ∨
      (∃ m, min_similarity = some m ∧ (m < 0 ∨ 100 < m))) :
    ∃ msg, get_sauce_check h num_results min_similarity = some (Error.InvalidParameters msg) := by
  rcases hbad with ⟨n, hn, hgt⟩ | ⟨m, hm, hout⟩
  · by_cases hms : is_valid_min_sim min_similarity
    · refine ⟨numResErrorMessage, ?_⟩
      have hnr : is_valid_num_res num_results = false := by
        rw [hn]
        simp only [is_valid_num_res, decide_eq_false_iff_not, not_le]
        exact hgt
      simp [get_sauce_check, hms, hnr]
    · refine ⟨minSimErrorMessage, ?_⟩
      simp only [Bool.not_eq_true] at hms
      simp [get_sauce_check, hms]
  · refine ⟨minSimErrorMessage, ?_⟩
    have hms : is_valid_min_sim min_similarity = false := by
      rw [hm]
      simp only [is_valid_min_sim, decide_eq_false_iff_not, not_and_or, not_le]
      rcases hout with hlt | hgt
      · exact Or.inl hlt
      · exact Or.inr hgt
    simp [get_sauce_check, hms]

/-- Witness for claim C2 at the concrete per-call cap 1000 on a default
handler. -/
theorem claim2_witness :
    ∃ msg, get_sauce_check handler0 (some 1000) none = some (Error.InvalidParameters msg) :=
  claim2_percall_validation handler0 (some 1000) none (Or.inl ⟨1000, rfl, by decide⟩)

/-- Counterexample to claim C2 as stated: the config-level minimum similarity
is never validated.  Setting the handler default to 150 — outside [0, 100] —
and calling with no per-call override passes the validation prefix
(`get_sauce_check` returns `none`), so the call proceeds to network I/O
instead of failing with `InvalidParameters`. -/
theorem claim2_counterexample :
    (handler0.set_min_similarity 150).min_similarity = 150 ∧
      ¬ ((0 : Rat) ≤ 150 ∧ (150 : Rat) ≤ 100) ∧
      get_sauce_check (handler0.set_min_similarity 150) none none = none := by
  refine ⟨rfl, by decide, rfl⟩

end Rustnao
